import Mathlib

/-!
Shallow embedding of the configuration-and-launch subsystem of the
pump-raydium program, covering
`src/programs/pump-raydium/src/instructions/admin/configure.rs`
(`Configure::handler`) and
`src/programs/pump-raydium/src/instructions/curve/create_bonding_curve.rs`
(`CreateBondingCurve::handler` plus the `team_wallet` account constraint).

Machine integers are modelled as `Nat`; `u64` wrap-around is written
explicitly as `% 2 ^ 64` where it matters.  A handler returning
`Except.error e` models the on-ledger abort of the whole attempt: the
hosting runtime rolls back every staged effect of a failed instruction,
so an error result carries no post-state.

Account identities (`Pubkey`) are modelled as `Nat`.  Account data is a
`List Nat` of byte values.  Items of the repository that are outside the
two source files (the `Config` state type and its range validators, the
Anchor discriminator bytes, Solana rent arithmetic, and the
`sol_transfer_from_user` helper) are modelled from the specification and
are marked `Modelled from the spec:` on their doc comments.
-/

set_option maxRecDepth 100000

abbrev Pubkey := Nat

deriving instance DecidableEq for Except

/-- Error outcomes of the two instructions.  `IncorrectConfigAccount`,
`IncorrectAuthority` and `ValueInvalid` are the contract's own error
codes used in the sources; `OutOfRange` is the range-validator failure
named by the spec; the remaining constructors model failures of the
external collaborators (borsh deserialization, system-program account
creation and transfers, arithmetic aborts, and an out-of-bounds slice
write, which in Rust is an abort of the attempt). -/
inductive ContractError where
  | IncorrectConfigAccount
  | IncorrectAuthority
  | ValueInvalid
  | OutOfRange
  | DeserializeFailure
  | CreateAccountFailure
  | InsufficientFunds
  | WriteOverrun
  | DivideByZero
deriving Repr, DecidableEq

/-- Modelled from the spec: an inclusive min/max range validator
(`lamport_amount_config`, `token_supply_config`, `token_decimals_config`
of the ConfigurationRecord); the validator type itself lives in
`state/config.rs`, which is not among the given sources. -/
structure AmountConfig where
  min : Nat
  max : Nat
deriving Repr, DecidableEq

/-- Modelled from the spec: `validate(value, config) -> Ok | Fails(OutOfRange)`
with inclusive bounds and no side effects. -/
def AmountConfig.validate (c : AmountConfig) (value : Nat) : Except ContractError Unit :=
  if value < c.min ∨ c.max < value then Except.error ContractError.OutOfRange
  else Except.ok ()

/-- Modelled from the spec: the ConfigurationRecord (`Config` in
`state/config.rs`, not among the given sources).  Field names follow the
uses in the two given source files. -/
structure Config where
  authority : Pubkey
  team_wallet : Pubkey
  lamport_amount_config : AmountConfig
  token_supply_config : AmountConfig
  token_decimals_config : AmountConfig
  initial_virtual_sol_reserves_config : Nat
  initial_virtual_token_reserves_config : Nat
  initial_real_token_reserves_config : Nat
deriving Repr, DecidableEq

/-- The BondingCurveRecord, field-for-field as listed in the source
(`create_bonding_curve.rs`, comment block and assignments in the
handler). -/
structure BondingCurve where
  token_mint : Pubkey
  creator : Pubkey
  init_lamport : Nat
  token_total_supply : Nat
  virtual_sol_reserves : Nat
  virtual_token_reserves : Nat
  real_sol_reserves : Nat
  real_token_reserves : Nat
  is_completed : Bool
deriving Repr, DecidableEq

/-- The collaborator calls the create handler performs, in program
order: custody-account creation, supply minting, metadata attachment,
mint-authority revocation. -/
inductive CurveEffect where
  | createTokenAccount
  | mintTokens (amount : Nat)
  | attachMetadata (name symbol uri : String)
  | revokeMintAuth
deriving Repr, DecidableEq

/-- Result of a successful create call: the persisted record plus the
ordered collaborator calls made on the way. -/
structure CreateOutcome where
  record : BondingCurve
  effects : List CurveEffect
deriving Repr, DecidableEq

/-- `10u64.pow(decimals as u32)` from the create handler: ten to the
power `decimals` in unsigned 64-bit arithmetic. -/
def decimalMultiplier (decimals : Nat) : Nat :=
  10 ^ decimals % 2 ^ 64

/-- `CreateBondingCurve::handler` (`create_bonding_curve.rs`, lines
103-252): parameter checks, range validation, record initialization and
the collaborator-call sequence.  The `DivideByZero` branch models the
Rust abort of `token_supply % 0` (the wrapped multiplier is zero exactly
when `decimals ≥ 64`). -/
def CreateBondingCurve.handler (cfg : Config) (creator tokenMint : Pubkey)
    (decimals tokenSupply reserveLamport : Nat)
    (name symbol uri : String) : Except ContractError CreateOutcome :=
  let m := decimalMultiplier decimals
  if m = 0 then Except.error ContractError.DivideByZero
  else if tokenSupply % m ≠ 0 then Except.error ContractError.ValueInvalid
  else match cfg.lamport_amount_config.validate reserveLamport with
  | Except.error e => Except.error e
  | Except.ok _ =>
    match cfg.token_supply_config.validate (tokenSupply / m) with
    | Except.error e => Except.error e
    | Except.ok _ =>
      match cfg.token_decimals_config.validate decimals with
      | Except.error e => Except.error e
      | Except.ok _ =>
        Except.ok
          { record :=
              { token_mint := tokenMint
                creator := creator
                init_lamport := reserveLamport
                token_total_supply := tokenSupply
                virtual_sol_reserves := cfg.initial_virtual_sol_reserves_config
                virtual_token_reserves := cfg.initial_virtual_token_reserves_config
                real_sol_reserves := 0
                real_token_reserves := cfg.initial_real_token_reserves_config
                is_completed := false }
            effects :=
              [ CurveEffect.createTokenAccount,
                CurveEffect.mintTokens tokenSupply,
                CurveEffect.attachMetadata name symbol uri,
                CurveEffect.revokeMintAuth ] }

/-- The whole create instruction: the Anchor account constraint
`global_config.team_wallet == team_wallet.key() @IncorrectAuthority`
(`create_bonding_curve.rs`, lines 94-99) is validated before the handler
body runs; then the handler. -/
def create (cfg : Config) (creator tokenMint teamWallet : Pubkey)
    (decimals tokenSupply reserveLamport : Nat)
    (name symbol uri : String) : Except ContractError CreateOutcome :=
  if teamWallet ≠ cfg.team_wallet then Except.error ContractError.IncorrectAuthority
  else CreateBondingCurve.handler cfg creator tokenMint decimals tokenSupply reserveLamport
    name symbol uri

/-! ## Byte-level serialization of the configuration record

`Configure::handler` manipulates the raw account data: an 8-byte Anchor
discriminator followed by the borsh serialization of `Config`.  Bytes
are little-endian, fixed width per field (32 bytes per `Pubkey`, 8 per
`u64`, 1 per `u8`), and deserialization reads the fields in order and
ignores trailing bytes, as borsh does. -/

/-- Little-endian base-256 digits, fixed width `k`. -/
def natToBytes : Nat → Nat → List Nat
  | 0, _ => []
  | k + 1, n => n % 256 :: natToBytes k (n / 256)

/-- Value of a little-endian base-256 byte list. -/
def natFromBytes : List Nat → Nat
  | [] => 0
  | b :: bs => b + 256 * natFromBytes bs

/-- Read a `k`-byte little-endian value off the front of a byte list. -/
def readNat (k : Nat) (bs : List Nat) : Option (Nat × List Nat) :=
  if k ≤ bs.length then some (natFromBytes (bs.take k), bs.drop k) else none

/-- Modelled from the spec: the fixed 8-byte type tag
(`Config::DISCRIMINATOR`) that distinguishes an initialized
configuration slot; the concrete bytes are opaque to the logic. -/
def configDiscriminator : List Nat := [155, 12, 170, 224, 30, 250, 204, 130]

/-- Modelled from the spec: borsh serialization of the configuration
record (`new_config.try_to_vec()`), fields in declaration order. -/
def serializeConfig (c : Config) : List Nat :=
  natToBytes 32 c.authority ++
    (natToBytes 32 c.team_wallet ++
      (natToBytes 8 c.lamport_amount_config.min ++
        (natToBytes 8 c.lamport_amount_config.max ++
          (natToBytes 8 c.token_supply_config.min ++
            (natToBytes 8 c.token_supply_config.max ++
              (natToBytes 1 c.token_decimals_config.min ++
                (natToBytes 1 c.token_decimals_config.max ++
                  (natToBytes 8 c.initial_virtual_sol_reserves_config ++
                    (natToBytes 8 c.initial_virtual_token_reserves_config ++
                      natToBytes 8 c.initial_real_token_reserves_config)))))))))

/-- Modelled from the spec: borsh deserialization
(`Config::deserialize(&mut &data[8..])`): reads the fields in order,
fails if the bytes run out, ignores trailing bytes. -/
def deserializeConfig (bs : List Nat) : Option Config := do
  let (a, bs) ← readNat 32 bs
  let (tw, bs) ← readNat 32 bs
  let (lmin, bs) ← readNat 8 bs
  let (lmax, bs) ← readNat 8 bs
  let (smin, bs) ← readNat 8 bs
  let (smax, bs) ← readNat 8 bs
  let (dmin, bs) ← readNat 1 bs
  let (dmax, bs) ← readNat 1 bs
  let (ivs, bs) ← readNat 8 bs
  let (ivt, bs) ← readNat 8 bs
  let (irt, _) ← readNat 8 bs
  some
    { authority := a
      team_wallet := tw
      lamport_amount_config := ⟨lmin, lmax⟩
      token_supply_config := ⟨smin, smax⟩
      token_decimals_config := ⟨dmin, dmax⟩
      initial_virtual_sol_reserves_config := ivs
      initial_virtual_token_reserves_config := ivt
      initial_real_token_reserves_config := irt }

/-- Field bounds under which the fixed-width serialization is faithful:
pubkeys fit in 32 bytes, `u64` fields in 8, `u8` fields in 1. -/
def Config.wf (c : Config) : Prop :=
  c.authority < 256 ^ 32 ∧ c.team_wallet < 256 ^ 32 ∧
    c.lamport_amount_config.min < 256 ^ 8 ∧ c.lamport_amount_config.max < 256 ^ 8 ∧
    c.token_supply_config.min < 256 ^ 8 ∧ c.token_supply_config.max < 256 ^ 8 ∧
    c.token_decimals_config.min < 256 ^ 1 ∧ c.token_decimals_config.max < 256 ^ 1 ∧
    c.initial_virtual_sol_reserves_config < 256 ^ 8 ∧
    c.initial_virtual_token_reserves_config < 256 ^ 8 ∧
    c.initial_real_token_reserves_config < 256 ^ 8

instance (c : Config) : Decidable c.wf := by
  unfold Config.wf
  exact inferInstance

/-! ## The configure instruction -/

/-- The identity of this program (`crate::ID`); opaque. -/
def programId : Pubkey := 999

/-- Modelled from the spec: Solana rent arithmetic
(`Rent::get()?.minimum_balance(len)`) — the storage deposit required to
keep a slot of `len` data bytes alive, with the default parameters
(128-byte account overhead, 3480 lamports per byte-year, 2-year
exemption threshold). -/
def rentMinimumBalance (dataLen : Nat) : Nat := (128 + dataLen) * 6960

/-- One ledger storage slot: owning program, raw data bytes, lamport
balance. -/
structure Slot where
  owner : Pubkey
  data : List Nat
  lamports : Nat
deriving Repr, DecidableEq

/-- The state the configure instruction touches: the configuration slot,
the vault's lamport balance and the caller's lamport balance. -/
structure ConfState where
  configSlot : Slot
  vaultLamports : Nat
  payerLamports : Nat
deriving Repr, DecidableEq

/-- `configure.rs` lines 64-93: create the configuration slot if it is
not yet owned by this program (the system program refuses to create over
a non-pristine account), otherwise check the discriminator, deserialize
and check the stored authority against the caller. -/
def configInitOrAuth (payer : Pubkey) (len cost : Nat) (st : ConfState) :
    Except ContractError ConfState :=
  if st.configSlot.owner ≠ programId then
    if st.configSlot.lamports ≠ 0 ∨ st.configSlot.data ≠ [] then
      Except.error ContractError.CreateAccountFailure
    else if st.payerLamports < cost then Except.error ContractError.InsufficientFunds
    else Except.ok
      { st with
        configSlot := { owner := programId, data := List.replicate len 0, lamports := cost }
        payerLamports := st.payerLamports - cost }
  else if st.configSlot.data.length < 8 ∨ st.configSlot.data.take 8 ≠ configDiscriminator then
    Except.error ContractError.IncorrectConfigAccount
  else
    match deserializeConfig (st.configSlot.data.drop 8) with
    | none => Except.error ContractError.DeserializeFailure
    | some stored =>
      if stored.authority ≠ payer then Except.error ContractError.IncorrectAuthority
      else Except.ok st

/-- `configure.rs` lines 95-108: if the required deposit exceeds the
slot's current lamports, transfer the delta from the caller and resize
the slot's data to exactly `len` bytes; otherwise do nothing. -/
def configTopUpAndRealloc (len cost : Nat) (st : ConfState) :
    Except ContractError ConfState :=
  if st.configSlot.lamports < cost then
    if st.payerLamports < cost - st.configSlot.lamports then
      Except.error ContractError.InsufficientFunds
    else Except.ok
      { st with
        configSlot :=
          { st.configSlot with
            lamports := cost
            data := st.configSlot.data.take len ++
              List.replicate (len - st.configSlot.data.length) 0 }
        payerLamports := st.payerLamports - (cost - st.configSlot.lamports) }
  else Except.ok st

/-- `configure.rs` lines 110-111: copy the serialized bytes over the
first `serialized.length` bytes of the slot; slicing a buffer shorter
than that aborts the attempt (`WriteOverrun`). -/
def configWriteBytes (serialized : List Nat) (st : ConfState) :
    Except ContractError ConfState :=
  if st.configSlot.data.length < serialized.length then
    Except.error ContractError.WriteOverrun
  else Except.ok
    { st with
      configSlot :=
        { st.configSlot with
          data := serialized ++ st.configSlot.data.drop serialized.length } }

/-- `configure.rs` lines 113-121 with `sol_transfer_from_user` modelled
from the spec: if the vault holds zero lamports, transfer the fixed
1000000-lamport bootstrap amount from the caller to the vault. -/
def vaultBootstrap (st : ConfState) : Except ContractError ConfState :=
  if st.vaultLamports = 0 then
    if st.payerLamports < 1000000 then Except.error ContractError.InsufficientFunds
    else Except.ok
      { st with
        vaultLamports := st.vaultLamports + 1000000
        payerLamports := st.payerLamports - 1000000 }
  else Except.ok st

/-- `Configure::handler` (`configure.rs`, lines 58-123): serialize the
proposed configuration behind the type tag, create-or-authorize the
slot, top up and resize on deposit deficit, write the bytes, bootstrap
the vault. -/
def configure (payer : Pubkey) (newConfig : Config) (st : ConfState) :
    Except ContractError ConfState :=
  let serialized := configDiscriminator ++ serializeConfig newConfig
  let cost := rentMinimumBalance serialized.length
  (configInitOrAuth payer serialized.length cost st).bind fun st1 =>
    (configTopUpAndRealloc serialized.length cost st1).bind fun st2 =>
      (configWriteBytes serialized st2).bind fun st3 =>
        vaultBootstrap st3

/-- The configuration record currently stored in the slot, read the way
the update path reads it. -/
def storedConfig (st : ConfState) : Option Config :=
  deserializeConfig (st.configSlot.data.drop 8)

/-! ## Concrete sample inputs used by counterexamples and witnesses -/

/-- A configuration with wide ranges (decimals allowed up to 30) whose
stored authority is `2` and team wallet is `77`. -/
def cfgLoose : Config :=
  { authority := 2
    team_wallet := 77
    lamport_amount_config := ⟨0, 1000000000⟩
    token_supply_config := ⟨0, 1000000000⟩
    token_decimals_config := ⟨0, 30⟩
    initial_virtual_sol_reserves_config := 30000000000
    initial_virtual_token_reserves_config := 1000000000000000
    initial_real_token_reserves_config := 793100000000000 }

/-- A configuration whose whole-unit supply range is the single point
`[1, 1]`. -/
def cfgSupplyOne : Config :=
  { cfgLoose with token_supply_config := ⟨1, 1⟩ }

/-- A configuration whose stored authority is `1`. -/
def cfgAuthOne : Config :=
  { cfgLoose with authority := 1 }

/-- A second configuration with authority `1` and a different seed
value, used as an update payload. -/
def cfgAuthOneB : Config :=
  { cfgAuthOne with initial_virtual_sol_reserves_config := 42 }

/-- An untouched state: configuration slot not yet owned by the program,
vault empty, caller well funded. -/
def stEmpty : ConfState :=
  { configSlot := { owner := 0, data := [], lamports := 0 }
    vaultLamports := 0
    payerLamports := 1000000000 }

/-- The state produced by a first configure call of `cfgLoose` by
caller `1` on `stEmpty`. -/
def stAfterInit : ConfState :=
  { configSlot :=
      { owner := programId
        data := configDiscriminator ++ serializeConfig cfgLoose
        lamports := 1795680 }
    vaultLamports := 1000000
    payerLamports := 1000000000 - 1795680 - 1000000 }

/-- A program-owned slot whose data does not start with the
configuration type tag. -/
def stBadTag : ConfState :=
  { configSlot := { owner := programId, data := [1, 2, 3], lamports := 1000 }
    vaultLamports := 5
    payerLamports := 1000000000 }

/-- A program-owned slot holding `cfgLoose` (authority `2`). -/
def stOwnedLoose : ConfState :=
  { configSlot :=
      { owner := programId
        data := configDiscriminator ++ serializeConfig cfgLoose
        lamports := 1795680 }
    vaultLamports := 5
    payerLamports := 1000000000 }

/-- A program-owned slot holding `cfgAuthOne` followed by three stale
trailing bytes, already funded above the rent minimum for the new,
shorter record. -/
def stShrink : ConfState :=
  { configSlot :=
      { owner := programId
        data := configDiscriminator ++ serializeConfig cfgAuthOne ++ [7, 7, 7]
        lamports := rentMinimumBalance 133 }
    vaultLamports := 5
    payerLamports := 1000000000 }

/-- The state produced by the `cfgAuthOneB` update on `stShrink` by
caller `1`: the record prefix is rewritten, the stale tail survives. -/
def stShrinkAfter : ConfState :=
  { configSlot :=
      { owner := programId
        data := configDiscriminator ++ serializeConfig cfgAuthOneB ++ [7, 7, 7]
        lamports := rentMinimumBalance 133 }
    vaultLamports := 5
    payerLamports := 1000000000 }

/-! ## Helper lemmas -/

theorem natToBytes_length (k n : Nat) : (natToBytes k n).length = k := by
  induction k generalizing n with
  | zero => rfl
  | succ k ih => simp [natToBytes, ih]

theorem natFromBytes_natToBytes (k n : Nat) (h : n < 256 ^ k) :
    natFromBytes (natToBytes k n) = n := by
  induction k generalizing n with
  | zero =>
    have h0 : n = 0 := Nat.lt_one_iff.mp (by simpa using h)
    simp [h0, natToBytes, natFromBytes]
  | succ k ih =>
    have h2 : n / 256 < 256 ^ k := by
      rw [Nat.div_lt_iff_lt_mul (by norm_num)]
      calc n < 256 ^ (k + 1) := h
        _ = 256 ^ k * 256 := by ring
    simp [natToBytes, natFromBytes, ih _ h2]
    omega

theorem readNat_append (k n : Nat) (rest : List Nat) (h : n < 256 ^ k) :
    readNat k (natToBytes k n ++ rest) = some (n, rest) := by
  have hl := natToBytes_length k n
  unfold readNat
  rw [if_pos (by simp [hl]), List.take_left' hl, List.drop_left' hl,
    natFromBytes_natToBytes k n h]

theorem serializeConfig_length (c : Config) : (serializeConfig c).length = 122 := by
  simp [serializeConfig, natToBytes_length]

set_option maxHeartbeats 2000000 in
theorem deserializeConfig_append (c : Config) (rest : List Nat) (h : c.wf) :
    deserializeConfig (serializeConfig c ++ rest) = some c := by
  obtain ⟨h1, h2, h3, h4, h5, h6, h7, h8, h9, h10, h11⟩ := h
  simp only [deserializeConfig, serializeConfig, List.append_assoc]
  rw [readNat_append _ _ _ h1]
  simp only [bind, Option.bind]
  rw [readNat_append _ _ _ h2]
  simp only [bind, Option.bind]
  rw [readNat_append _ _ _ h3]
  simp only [bind, Option.bind]
  rw [readNat_append _ _ _ h4]
  simp only [bind, Option.bind]
  rw [readNat_append _ _ _ h5]
  simp only [bind, Option.bind]
  rw [readNat_append _ _ _ h6]
  simp only [bind, Option.bind]
  rw [readNat_append _ _ _ h7]
  simp only [bind, Option.bind]
  rw [readNat_append _ _ _ h8]
  simp only [bind, Option.bind]
  rw [readNat_append _ _ _ h9]
  simp only [bind, Option.bind]
  rw [readNat_append _ _ _ h10]
  simp only [bind, Option.bind]
  rw [readNat_append _ _ _ h11]

theorem readNat_some (k : Nat) (bs : List Nat) (p : Nat × List Nat)
    (h : readNat k bs = some p) : k ≤ bs.length ∧ p.2 = bs.drop k := by
  unfold readNat at h
  split at h
  · cases h
    simp_all
  · cases h

theorem deserializeConfig_some_length (bs : List Nat) (c : Config)
    (h : deserializeConfig bs = some c) : 122 ≤ bs.length := by
  rw [deserializeConfig] at h
  obtain ⟨p1, e1, h⟩ := Option.bind_eq_some.mp h
  obtain ⟨p2, e2, h⟩ := Option.bind_eq_some.mp h
  obtain ⟨p3, e3, h⟩ := Option.bind_eq_some.mp h
  obtain ⟨p4, e4, h⟩ := Option.bind_eq_some.mp h
  obtain ⟨p5, e5, h⟩ := Option.bind_eq_some.mp h
  obtain ⟨p6, e6, h⟩ := Option.bind_eq_some.mp h
  obtain ⟨p7, e7, h⟩ := Option.bind_eq_some.mp h
  obtain ⟨p8, e8, h⟩ := Option.bind_eq_some.mp h
  obtain ⟨p9, e9, h⟩ := Option.bind_eq_some.mp h
  obtain ⟨p10, e10, h⟩ := Option.bind_eq_some.mp h
  obtain ⟨p11, e11, _⟩ := Option.bind_eq_some.mp h
  obtain ⟨l1, d1⟩ := readNat_some _ _ _ e1
  obtain ⟨l2, d2⟩ := readNat_some _ _ _ e2
  obtain ⟨l3, d3⟩ := readNat_some _ _ _ e3
  obtain ⟨l4, d4⟩ := readNat_some _ _ _ e4
  obtain ⟨l5, d5⟩ := readNat_some _ _ _ e5
  obtain ⟨l6, d6⟩ := readNat_some _ _ _ e6
  obtain ⟨l7, d7⟩ := readNat_some _ _ _ e7
  obtain ⟨l8, d8⟩ := readNat_some _ _ _ e8
  obtain ⟨l9, d9⟩ := readNat_some _ _ _ e9
  obtain ⟨l10, d10⟩ := readNat_some _ _ _ e10
  obtain ⟨l11, _⟩ := readNat_some _ _ _ e11
  rw [d1] at d2
  rw [d2] at d3
  rw [d3] at d4
  rw [d4] at d5
  rw [d5] at d6
  rw [d6] at d7
  rw [d7] at d8
  rw [d8] at d9
  rw [d9] at d10
  rw [d10] at l11
  simp only [List.drop_drop, List.length_drop] at l11
  omega

theorem except_bind_ok {ε α β : Type} (x : Except ε α) (f : α → Except ε β) (b : β)
    (h : x.bind f = Except.ok b) : ∃ a, x = Except.ok a ∧ f a = Except.ok b := by
  cases x with
  | error e => simp [Except.bind] at h
  | ok a => exact ⟨a, rfl, h⟩

theorem except_bind_error {ε α β : Type} (e : ε) (f : α → Except ε β) :
    (Except.error e : Except ε α).bind f = Except.error e := rfl

theorem serializedRecord_length (cfg : Config) :
    (configDiscriminator ++ serializeConfig cfg).length = 130 := by
  simp [configDiscriminator, serializeConfig_length]

theorem configInitOrAuth_ok (p : Pubkey) (len cost : Nat) (st st' : ConfState)
    (h : configInitOrAuth p len cost st = Except.ok st') :
    (st.configSlot.owner ≠ programId ∧
      st' = { st with
        configSlot := { owner := programId, data := List.replicate len 0, lamports := cost }
        payerLamports := st.payerLamports - cost }) ∨
    (st.configSlot.owner = programId ∧ st' = st ∧
      8 ≤ st.configSlot.data.length ∧
      st.configSlot.data.take 8 = configDiscriminator ∧
      ∃ stored, deserializeConfig (st.configSlot.data.drop 8) = some stored ∧
        stored.authority = p) := by
  unfold configInitOrAuth at h
  split at h
  next hown =>
    split at h
    · simp at h
    · split at h
      · simp at h
      · cases h
        exact Or.inl ⟨hown, rfl⟩
  next hown =>
    split at h
    next hbad => simp at h
    next hgood =>
      push_neg at hgood
      split at h
      · simp at h
      next stored hdes =>
        split at h
        · simp at h
        next hauth =>
          push_neg at hauth
          cases h
          push_neg at hown
          exact Or.inr ⟨hown, rfl, Nat.le_of_not_lt (by omega), hgood.2, stored, hdes, hauth⟩

theorem configTopUpAndRealloc_ok (len cost : Nat) (st st' : ConfState)
    (h : configTopUpAndRealloc len cost st = Except.ok st') :
    st'.vaultLamports = st.vaultLamports ∧
    st'.configSlot.owner = st.configSlot.owner ∧
    ((st.configSlot.lamports < cost ∧
        st'.configSlot.data = st.configSlot.data.take len ++
          List.replicate (len - st.configSlot.data.length) 0 ∧
        st'.configSlot.lamports = cost) ∨
      (cost ≤ st.configSlot.lamports ∧ st' = st)) := by
  unfold configTopUpAndRealloc at h
  split at h
  next hlt =>
    split at h
    · simp at h
    · cases h
      exact ⟨rfl, rfl, Or.inl ⟨hlt, rfl, rfl⟩⟩
  next hge =>
    cases h
    exact ⟨rfl, rfl, Or.inr ⟨Nat.le_of_not_lt hge, rfl⟩⟩

theorem configWriteBytes_ok (s : List Nat) (st st' : ConfState)
    (h : configWriteBytes s st = Except.ok st') :
    s.length ≤ st.configSlot.data.length ∧
    st' = { st with
      configSlot := { st.configSlot with
        data := s ++ st.configSlot.data.drop s.length } } := by
  unfold configWriteBytes at h
  split at h
  · simp at h
  next hge =>
    cases h
    exact ⟨Nat.le_of_not_lt hge, rfl⟩

theorem vaultBootstrap_ok (st st' : ConfState) (h : vaultBootstrap st = Except.ok st') :
    st'.configSlot = st.configSlot ∧
    ((st.vaultLamports = 0 ∧ st'.vaultLamports = st.vaultLamports + 1000000) ∨
      (st.vaultLamports ≠ 0 ∧ st'.vaultLamports = st.vaultLamports)) := by
  unfold vaultBootstrap at h
  split at h
  next hz =>
    split at h
    · simp at h
    · cases h
      exact ⟨rfl, Or.inl ⟨hz, rfl⟩⟩
  next hnz =>
    cases h
    exact ⟨rfl, Or.inr ⟨hnz, rfl⟩⟩

theorem configure_ok_decompose (p : Pubkey) (cfg : Config) (st st' : ConfState)
    (h : configure p cfg st = Except.ok st') :
    ∃ st1 st2 st3,
      configInitOrAuth p (configDiscriminator ++ serializeConfig cfg).length
        (rentMinimumBalance (configDiscriminator ++ serializeConfig cfg).length) st =
          Except.ok st1 ∧
      configTopUpAndRealloc (configDiscriminator ++ serializeConfig cfg).length
        (rentMinimumBalance (configDiscriminator ++ serializeConfig cfg).length) st1 =
          Except.ok st2 ∧
      configWriteBytes (configDiscriminator ++ serializeConfig cfg) st2 = Except.ok st3 ∧
      vaultBootstrap st3 = Except.ok st' := by
  simp only [configure] at h
  obtain ⟨st1, h1, h⟩ := except_bind_ok _ _ _ h
  obtain ⟨st2, h2, h⟩ := except_bind_ok _ _ _ h
  obtain ⟨st3, h3, h⟩ := except_bind_ok _ _ _ h
  exact ⟨st1, st2, st3, h1, h2, h3, h⟩

theorem configure_error_of_init (p : Pubkey) (cfg : Config) (st : ConfState)
    (e : ContractError)
    (h : configInitOrAuth p (configDiscriminator ++ serializeConfig cfg).length
      (rentMinimumBalance (configDiscriminator ++ serializeConfig cfg).length) st =
        Except.error e) :
    configure p cfg st = Except.error e := by
  simp only [configure, h, except_bind_error]


/-! ## Claim theorems: the create instruction -/

/-- C10: in create, the decimal multiplier is `10 ^ decimals` computed in
unsigned 64-bit arithmetic.  For every `decimals ≤ 19` this equals the
mathematical `10 ^ decimals` exactly (so the divisibility guard and the
whole-unit supply `tokenSupply / 10 ^ decimals` are exact), while for
every `decimals ≥ 20` the mathematical value exceeds the u64 range and
the computed multiplier cannot equal it, so the consistency check never
runs on the true mathematical remainder for such inputs. -/
theorem decimalMultiplier_u64 (d : Nat) :
    (d ≤ 19 → decimalMultiplier d = 10 ^ d) ∧
    (20 ≤ d → 2 ^ 64 ≤ 10 ^ d ∧ decimalMultiplier d ≠ 10 ^ d) := by
  constructor
  · intro hd
    have h10 : (10 : Nat) ^ d ≤ 10 ^ 19 := Nat.pow_le_pow_right (by norm_num) hd
    have hlt : (10 : Nat) ^ d < 2 ^ 64 := lt_of_le_of_lt h10 (by norm_num)
    exact Nat.mod_eq_of_lt hlt
  · intro hd
    have h20 : (10 : Nat) ^ 20 ≤ 10 ^ d := Nat.pow_le_pow_right (by norm_num) hd
    have hle : (2 : Nat) ^ 64 ≤ 10 ^ d := le_trans (by norm_num) h20
    have hlt : decimalMultiplier d < 2 ^ 64 := Nat.mod_lt _ (by norm_num)
    exact ⟨hle, by omega⟩

/-- Witness for C10 at `decimals = 6` and `decimals = 20`. -/
theorem decimalMultiplier_u64_witness :
    decimalMultiplier 6 = 10 ^ 6 ∧ decimalMultiplier 20 ≠ 10 ^ 20 :=
  ⟨(decimalMultiplier_u64 6).1 (by decide), ((decimalMultiplier_u64 20).2 (by decide)).2⟩

/-- C1 counterexample: at `decimals = 20` the handler reduces
`10 ^ 20` modulo `2 ^ 64` to `7766279631452241920`, so a supply equal to
that wrapped multiplier is not a whole multiple of the mathematical
`10 ^ 20` yet create does not fail with `ValueInvalid` — it succeeds. -/
theorem create_fractional_supply_counterexample :
    7766279631452241920 % 10 ^ 20 ≠ 0 ∧
    create cfgLoose 5 6 77 20 7766279631452241920 100 "n" "s" "u" ≠
      Except.error ContractError.ValueInvalid ∧
    (create cfgLoose 5 6 77 20 7766279631452241920 100 "n" "s" "u").isOk = true := by
  refine ⟨by decide, by decide, by decide⟩

/-- C1 (amended): for every create call whose team wallet matches the
configuration and whose `decimals ≤ 19` (so the u64 power is exact), a
`tokenSupply` that is not a whole multiple of `10 ^ decimals` makes
create fail with `ValueInvalid`; the error result models the abort of
the attempt, so no record is persisted and no collaborator call
survives. -/
theorem create_fractional_supply_rejected (cfg : Config)
    (creator tokenMint teamWallet : Pubkey)
    (decimals tokenSupply reserveLamport : Nat) (name symbol uri : String)
    (hw : teamWallet = cfg.team_wallet) (hd : decimals ≤ 19)
    (hfrac : tokenSupply % 10 ^ decimals ≠ 0) :
    create cfg creator tokenMint teamWallet decimals tokenSupply reserveLamport
      name symbol uri = Except.error ContractError.ValueInvalid := by
  subst hw
  have hm := (decimalMultiplier_u64 decimals).1 hd
  have hne : (10 : Nat) ^ decimals ≠ 0 :=
    Nat.pos_iff_ne_zero.mp (pow_pos (by norm_num) decimals)
  simp [create, CreateBondingCurve.handler, hm, hne, hfrac]

/-- Witness for C1 (amended): a supply off by one from a whole number of
display units is rejected. -/
theorem create_fractional_supply_rejected_witness :
    create cfgLoose 5 6 77 6 1000001 100 "n" "s" "u" =
      Except.error ContractError.ValueInvalid :=
  create_fractional_supply_rejected cfgLoose 5 6 77 6 1000001 100 "n" "s" "u"
    rfl (by decide) (by decide)

/-- C2 counterexample: at `decimals = 20` the code validates
`tokenSupply / (10 ^ 20 mod 2 ^ 64)`, not the mathematical whole-unit
supply `tokenSupply / 10 ^ 20`.  With a supply range of `[1, 1]` and a
supply equal to the wrapped multiplier, the mathematical whole-unit
supply `0` is strictly outside the range, yet create succeeds instead of
failing with `OutOfRange`. -/
theorem create_range_checks_counterexample :
    7766279631452241920 / 10 ^ 20 < cfgSupplyOne.token_supply_config.min ∧
    create cfgSupplyOne 5 6 77 20 7766279631452241920 5 "n" "s" "u" ≠
      Except.error ContractError.OutOfRange ∧
    (create cfgSupplyOne 5 6 77 20 7766279631452241920 5 "n" "s" "u").isOk = true := by
  refine ⟨by decide, by decide, by decide⟩

/-- C2 (amended): for every create call with a matching team wallet,
`decimals ≤ 19` (so the u64 power is exact) and a supply that passes the
divisibility guard, the three range validations are applied against the
current configuration — `reserveLamport` via `lamport_amount_config`,
`tokenSupply / 10 ^ decimals` via `token_supply_config` and `decimals`
via `token_decimals_config` — with inclusive bounds: create fails with
`OutOfRange` exactly when some value is strictly outside its `[min, max]`
range, and succeeds exactly otherwise (so `value = min` and
`value = max` both pass). -/
theorem create_range_checks (cfg : Config) (creator tokenMint teamWallet : Pubkey)
    (decimals tokenSupply reserveLamport : Nat) (name symbol uri : String)
    (hw : teamWallet = cfg.team_wallet) (hd : decimals ≤ 19)
    (hdiv : tokenSupply % 10 ^ decimals = 0) :
    (create cfg creator tokenMint teamWallet decimals tokenSupply reserveLamport
        name symbol uri = Except.error ContractError.OutOfRange ↔
      (reserveLamport < cfg.lamport_amount_config.min ∨
        cfg.lamport_amount_config.max < reserveLamport ∨
        tokenSupply / 10 ^ decimals < cfg.token_supply_config.min ∨
        cfg.token_supply_config.max < tokenSupply / 10 ^ decimals ∨
        decimals < cfg.token_decimals_config.min ∨
        cfg.token_decimals_config.max < decimals)) ∧
    ((create cfg creator tokenMint teamWallet decimals tokenSupply reserveLamport
        name symbol uri).isOk = true ↔
      ¬(reserveLamport < cfg.lamport_amount_config.min ∨
        cfg.lamport_amount_config.max < reserveLamport ∨
        tokenSupply / 10 ^ decimals < cfg.token_supply_config.min ∨
        cfg.token_supply_config.max < tokenSupply / 10 ^ decimals ∨
        decimals < cfg.token_decimals_config.min ∨
        cfg.token_decimals_config.max < decimals)) := by
  subst hw
  have hm := (decimalMultiplier_u64 decimals).1 hd
  have hne : (10 : Nat) ^ decimals ≠ 0 :=
    Nat.pos_iff_ne_zero.mp (pow_pos (by norm_num) decimals)
  simp only [create, CreateBondingCurve.handler, AmountConfig.validate, hm,
    if_neg (by simp : ¬cfg.team_wallet ≠ cfg.team_wallet),
    if_neg (by simp [hne] : ¬(10 ^ decimals = 0)),
    if_neg (by simp [hdiv] : ¬¬tokenSupply % 10 ^ decimals = 0)]
  by_cases c1 : reserveLamport < cfg.lamport_amount_config.min ∨
      cfg.lamport_amount_config.max < reserveLamport
  · simp [c1, Except.isOk, Except.toBool] <;> omega
  · rw [if_neg c1]
    by_cases c2 : tokenSupply / 10 ^ decimals < cfg.token_supply_config.min ∨
        cfg.token_supply_config.max < tokenSupply / 10 ^ decimals
    · simp [c2, Except.isOk, Except.toBool] <;> omega
    · rw [if_neg c2]
      by_cases c3 : decimals < cfg.token_decimals_config.min ∨
          cfg.token_decimals_config.max < decimals
      · simp [c3, Except.isOk, Except.toBool]
      · simp [c1, c2, c3, Except.isOk, Except.toBool]

/-- Witness for C2 (amended) at both boundaries at once:
`reserveLamport = min` and whole-unit supply `= max` pass, so the call
succeeds. -/
theorem create_range_checks_witness :
    (create cfgLoose 5 6 77 6 1000000000000000 0 "n" "s" "u").isOk = true :=
  (create_range_checks cfgLoose 5 6 77 6 1000000000000000 0 "n" "s" "u"
    rfl (by decide) (by decide)).2.mpr (by decide)

/-- C3: every successful create call persists a BondingCurveRecord whose
mint is the new mint's identity, whose creator is the caller, whose
`init_lamport` is the declared reserve deposit, whose total supply is
the requested supply, whose virtual reserves and real token reserves are
copied from the configuration's seed values, whose real SOL reserves are
zero, and whose `is_completed` flag is false. -/
theorem create_success_record (cfg : Config) (creator tokenMint teamWallet : Pubkey)
    (decimals tokenSupply reserveLamport : Nat) (name symbol uri : String)
    (outcome : CreateOutcome)
    (h : create cfg creator tokenMint teamWallet decimals tokenSupply reserveLamport
      name symbol uri = Except.ok outcome) :
    outcome.record =
      { token_mint := tokenMint
        creator := creator
        init_lamport := reserveLamport
        token_total_supply := tokenSupply
        virtual_sol_reserves := cfg.initial_virtual_sol_reserves_config
        virtual_token_reserves := cfg.initial_virtual_token_reserves_config
        real_sol_reserves := 0
        real_token_reserves := cfg.initial_real_token_reserves_config
        is_completed := false } := by
  unfold create CreateBondingCurve.handler at h
  split at h
  all_goals try split at h
  all_goals try split at h
  all_goals simp [ite_eq_iff] at h
  all_goals obtain ⟨-, -, h⟩ := h
  all_goals try split at h
  all_goals try split at h
  all_goals try cases h
  all_goals simp_all

/-- The outcome of the spec's sample launch scenario. -/
def sampleOutcome : CreateOutcome :=
  { record :=
      { token_mint := 6
        creator := 5
        init_lamport := 1000000
        token_total_supply := 1000000000000
        virtual_sol_reserves := 30000000000
        virtual_token_reserves := 1000000000000000
        real_sol_reserves := 0
        real_token_reserves := 793100000000000
        is_completed := false }
    effects :=
      [ CurveEffect.createTokenAccount,
        CurveEffect.mintTokens 1000000000000,
        CurveEffect.attachMetadata "Foo" "FOO" "ipfs://x",
        CurveEffect.revokeMintAuth ] }

/-- Witness for C3 on the spec's sample launch scenario. -/
theorem create_success_record_witness :
    sampleOutcome.record =
      { token_mint := 6
        creator := 5
        init_lamport := 1000000
        token_total_supply := 1000000000000
        virtual_sol_reserves := cfgLoose.initial_virtual_sol_reserves_config
        virtual_token_reserves := cfgLoose.initial_virtual_token_reserves_config
        real_sol_reserves := 0
        real_token_reserves := cfgLoose.initial_real_token_reserves_config
        is_completed := false } :=
  create_success_record cfgLoose 5 6 77 6 1000000000000 1000000 "Foo" "FOO" "ipfs://x"
    sampleOutcome (by decide)

/-- C4: whenever the supplied team wallet differs from the
configuration's recorded team wallet, create fails with
`IncorrectAuthority`; the check is the account constraint evaluated
before the handler body, and the error result models the abort of the
attempt, so no account creation survives. -/
theorem create_team_wallet_mismatch (cfg : Config) (creator tokenMint teamWallet : Pubkey)
    (decimals tokenSupply reserveLamport : Nat) (name symbol uri : String)
    (h : teamWallet ≠ cfg.team_wallet) :
    create cfg creator tokenMint teamWallet decimals tokenSupply reserveLamport
      name symbol uri = Except.error ContractError.IncorrectAuthority := by
  simp [create, h]

/-- Witness for C4: team wallet `78` against recorded `77`. -/
theorem create_team_wallet_mismatch_witness :
    create cfgLoose 5 6 78 6 1000000000000 1000000 "Foo" "FOO" "ipfs://x" =
      Except.error ContractError.IncorrectAuthority :=
  create_team_wallet_mismatch cfgLoose 5 6 78 6 1000000000000 1000000 "Foo" "FOO" "ipfs://x"
    (by decide)

/-! ## Claim theorems: the configure instruction -/

/-- C5 counterexample: caller `1` issues the first configure call with a
proposed configuration whose `authority` field is `2`; the created
record stores authority `2`, not the caller — the handler writes the
serialized `new_config` verbatim and never records the caller. -/
theorem configure_first_call_counterexample :
    configure 1 cfgLoose stEmpty = Except.ok stAfterInit ∧
    storedConfig stAfterInit = some cfgLoose ∧
    cfgLoose.authority = 2 ∧ (2 : Pubkey) ≠ 1 := by
  refine ⟨by decide, by decide, rfl, by decide⟩

/-- C5 (amended): a first configure call (configuration slot not yet
owned by the program) that succeeds stores the type tag followed by the
serialized proposed configuration verbatim, so the stored authority
equals `proposedConfig.authority` — it equals the caller only when the
proposed configuration carries the caller as its authority. -/
theorem configure_first_call_stores_proposed (p : Pubkey) (cfg : Config) (st st' : ConfState)
    (hown : st.configSlot.owner ≠ programId) (hwf : cfg.wf)
    (h : configure p cfg st = Except.ok st') :
    st'.configSlot.data = configDiscriminator ++ serializeConfig cfg ∧
    storedConfig st' = some cfg := by
  obtain ⟨st1, st2, st3, h1, h2, h3, h4⟩ := configure_ok_decompose _ _ _ _ h
  rcases configInitOrAuth_ok _ _ _ _ _ h1 with ⟨-, rfl⟩ | ⟨hcontra, -⟩
  · obtain ⟨-, -, hcase⟩ := configTopUpAndRealloc_ok _ _ _ _ h2
    rcases hcase with ⟨hlt, -, -⟩ | ⟨-, rfl⟩
    · simp at hlt
    · obtain ⟨hlen, rfl⟩ := configWriteBytes_ok _ _ _ h3
      obtain ⟨hslot, -⟩ := vaultBootstrap_ok _ _ h4
      have hdata : st'.configSlot.data = configDiscriminator ++ serializeConfig cfg := by
        rw [hslot]
        simp
      refine ⟨hdata, ?_⟩
      unfold storedConfig
      rw [hdata, List.drop_left' (by decide : configDiscriminator.length = 8)]
      have hr := deserializeConfig_append cfg [] hwf
      simpa using hr
  · exact absurd hcontra hown

/-- Witness for C5 (amended) on the concrete first call of the
counterexample state. -/
theorem configure_first_call_stores_proposed_witness :
    stAfterInit.configSlot.data = configDiscriminator ++ serializeConfig cfgLoose ∧
    storedConfig stAfterInit = some cfgLoose :=
  configure_first_call_stores_proposed 1 cfgLoose stEmpty stAfterInit (by decide) (by decide)
    (by decide)

/-- C6: against an already-owned configuration slot, a missing or wrong
8-byte type tag makes configure fail with `IncorrectConfigAccount`, and
a correct tag whose deserialized record names an authority other than
the caller makes it fail with `IncorrectAuthority`; both checks precede
every write in the handler, and the error result models the abort of the
attempt, so the stored bytes are unchanged. -/
theorem configure_update_auth_checks (p : Pubkey) (cfg : Config) (st : ConfState)
    (hown : st.configSlot.owner = programId) :
    (st.configSlot.data.take 8 ≠ configDiscriminator →
      configure p cfg st = Except.error ContractError.IncorrectConfigAccount) ∧
    (∀ stored, st.configSlot.data.take 8 = configDiscriminator →
      deserializeConfig (st.configSlot.data.drop 8) = some stored →
      stored.authority ≠ p →
      configure p cfg st = Except.error ContractError.IncorrectAuthority) := by
  constructor
  · intro hbad
    apply configure_error_of_init
    simp [configInitOrAuth, hown, hbad]
  · intro stored htag hdes hauth
    apply configure_error_of_init
    have hlen : ¬ st.configSlot.data.length < 8 := by
      intro hl
      have hc := congrArg List.length htag
      simp [List.length_take, configDiscriminator] at hc
      omega
    simp [configInitOrAuth, hown, hlen, htag, hdes, hauth]

/-- Witness for C6: a wrong-tag slot is rejected with
`IncorrectConfigAccount`; a good-tag slot whose stored authority is `2`
rejects caller `5` with `IncorrectAuthority`. -/
theorem configure_update_auth_checks_witness :
    configure 5 cfgLoose stBadTag = Except.error ContractError.IncorrectConfigAccount ∧
    configure 5 cfgLoose stOwnedLoose = Except.error ContractError.IncorrectAuthority := by
  constructor
  · exact (configure_update_auth_checks 5 cfgLoose stBadTag (by decide)).1 (by decide)
  · exact (configure_update_auth_checks 5 cfgLoose stOwnedLoose (by decide)).2 cfgLoose
      (by decide) (by decide) (by decide)

theorem configInitOrAuth_no_overrun (p : Pubkey) (len cost : Nat) (st : ConfState) :
    configInitOrAuth p len cost st ≠ Except.error ContractError.WriteOverrun := by
  intro h
  unfold configInitOrAuth at h
  split at h
  all_goals try split at h
  all_goals try split at h
  all_goals try split at h
  all_goals simp at h

theorem configTopUpAndRealloc_no_overrun (len cost : Nat) (st : ConfState) :
    configTopUpAndRealloc len cost st ≠ Except.error ContractError.WriteOverrun := by
  intro h
  unfold configTopUpAndRealloc at h
  split at h
  all_goals try split at h
  all_goals simp at h

theorem vaultBootstrap_no_overrun (st : ConfState) :
    vaultBootstrap st ≠ Except.error ContractError.WriteOverrun := by
  intro h
  unfold vaultBootstrap at h
  split at h
  all_goals try split at h
  all_goals simp at h

theorem except_bind_eq_error {ε α β : Type} (x : Except ε α) (f : α → Except ε β) (e : ε)
    (h : x.bind f = Except.error e) :
    x = Except.error e ∨ ∃ a, x = Except.ok a ∧ f a = Except.error e := by
  cases x with
  | error e2 =>
    left
    simpa [Except.bind] using h
  | ok a => exact Or.inr ⟨a, rfl, h⟩

theorem configInitOrAuth_capacity (p : Pubkey) (len cost : Nat) (st st1 : ConfState)
    (hlen : len = 130) (h : configInitOrAuth p len cost st = Except.ok st1) :
    len ≤ st1.configSlot.data.length := by
  rcases configInitOrAuth_ok _ _ _ _ _ h with ⟨-, rfl⟩ | ⟨-, rfl, -, -, stored, hdes, -⟩
  · simp
  · have h122 := deserializeConfig_some_length _ _ hdes
    simp [List.length_drop] at h122
    omega

theorem configTopUpAndRealloc_capacity (len cost : Nat) (st st1 : ConfState)
    (hcap : len ≤ st.configSlot.data.length)
    (h : configTopUpAndRealloc len cost st = Except.ok st1) :
    len ≤ st1.configSlot.data.length := by
  rcases configTopUpAndRealloc_ok _ _ _ _ h with ⟨-, -, ⟨-, hdata, -⟩ | ⟨-, rfl⟩⟩
  · rw [hdata]
    simp [List.length_take]
    omega
  · exact hcap

/-- C7: the configure instruction never attempts a write into a slot
smaller than the new serialized record — the modelled
slot-too-small abort (`WriteOverrun`) is unreachable — and after every
successful call the slot's data capacity is at least the new serialized
size.  This holds for every prior state of the slot, in particular for
every prior lamport balance, including balances already at or above the
new rent requirement: in the update path a successful deserialization
already guarantees sufficient capacity, and the init path allocates the
exact size. -/
theorem configure_write_capacity (p : Pubkey) (cfg : Config) (st : ConfState) :
    configure p cfg st ≠ Except.error ContractError.WriteOverrun ∧
    ∀ st', configure p cfg st = Except.ok st' →
      (configDiscriminator ++ serializeConfig cfg).length ≤ st'.configSlot.data.length := by
  constructor
  · intro h
    simp only [configure] at h
    rcases except_bind_eq_error _ _ _ h with h1 | ⟨st1, h1, h⟩
    · exact configInitOrAuth_no_overrun _ _ _ _ h1
    rcases except_bind_eq_error _ _ _ h with h2 | ⟨st2, h2, h⟩
    · exact configTopUpAndRealloc_no_overrun _ _ _ h2
    rcases except_bind_eq_error _ _ _ h with h3 | ⟨st3, h3, h⟩
    · have c1 := configInitOrAuth_capacity _ _ _ _ _ (serializedRecord_length cfg) h1
      have c2 := configTopUpAndRealloc_capacity _ _ _ _ c1 h2
      unfold configWriteBytes at h3
      split at h3
      next hlt => omega
      · simp at h3
    · exact vaultBootstrap_no_overrun _ h
  · intro st' hok
    obtain ⟨st1, st2, st3, h1, h2, h3, h4⟩ := configure_ok_decompose _ _ _ _ hok
    have c1 := configInitOrAuth_capacity _ _ _ _ _ (serializedRecord_length cfg) h1
    have c2 := configTopUpAndRealloc_capacity _ _ _ _ c1 h2
    obtain ⟨hlen, rfl⟩ := configWriteBytes_ok _ _ _ h3
    obtain ⟨hslot, -⟩ := vaultBootstrap_ok _ _ h4
    rw [hslot]
    simp [List.length_drop]

/-- Witness for C7 on a concrete successful call. -/
theorem configure_write_capacity_witness :
    (configDiscriminator ++ serializeConfig cfgLoose).length ≤
      stAfterInit.configSlot.data.length :=
  (configure_write_capacity 1 cfgLoose stEmpty).2 stAfterInit (by decide)

/-- C8 counterexample: a program-owned slot holds a valid record
followed by three stale bytes and is already funded above the rent
minimum for the new, smaller record.  The update succeeds but the slot
keeps its old 133-byte length and the three stale trailing bytes — the
capacity is not re-synchronized to the 130-byte serialized size. -/
theorem configure_shrink_counterexample :
    (configDiscriminator ++ serializeConfig cfgAuthOneB).length = 130 ∧
    configure 1 cfgAuthOneB stShrink = Except.ok stShrinkAfter ∧
    stShrinkAfter.configSlot.data.length = 133 ∧
    stShrinkAfter.configSlot.data.drop 130 = [7, 7, 7] := by
  refine ⟨by decide, by decide, by decide, by decide⟩

/-- C8 (amended): on every successful configure call the slot is resized
to exactly the new serialized size only when the rent minimum for that
size exceeds the slot's current lamports (and on first-call creation);
when the slot is already funded at or above the new rent minimum, its
data keeps the previous length, so an update to a smaller serialized
record leaves the stale trailing bytes of the previous record in place
after the 130 rewritten bytes. -/
theorem configure_resize_only_on_deficit (p : Pubkey) (cfg : Config) (st st' : ConfState)
    (h : configure p cfg st = Except.ok st') :
    (st.configSlot.owner ≠ programId →
      st'.configSlot.data = configDiscriminator ++ serializeConfig cfg) ∧
    (st.configSlot.owner = programId →
      (st.configSlot.lamports < rentMinimumBalance 130 →
        st'.configSlot.data = configDiscriminator ++ serializeConfig cfg) ∧
      (rentMinimumBalance 130 ≤ st.configSlot.lamports →
        st'.configSlot.data =
          (configDiscriminator ++ serializeConfig cfg) ++ st.configSlot.data.drop 130)) := by
  obtain ⟨st1, st2, st3, h1, h2, h3, h4⟩ := configure_ok_decompose _ _ _ _ h
  have hL := serializedRecord_length cfg
  rw [hL] at h1 h2
  rcases configInitOrAuth_ok _ _ _ _ _ h1 with ⟨hown, rfl⟩ | ⟨hown, rfl, -, -, stored, hdes, -⟩
  · obtain ⟨-, -, hcase⟩ := configTopUpAndRealloc_ok _ _ _ _ h2
    rcases hcase with ⟨hlt, -, -⟩ | ⟨-, rfl⟩
    · simp at hlt
    · obtain ⟨hlen3, rfl⟩ := configWriteBytes_ok _ _ _ h3
      obtain ⟨hslot, -⟩ := vaultBootstrap_ok _ _ h4
      constructor
      · intro hx
        rw [hslot]
        simp [hL]
      · intro hcontra
        exact absurd hcontra hown
  · have hcap : 130 ≤ st1.configSlot.data.length := by
      have h122 := deserializeConfig_some_length _ _ hdes
      simp [List.length_drop] at h122
      omega
    obtain ⟨-, -, hcase⟩ := configTopUpAndRealloc_ok _ _ _ _ h2
    constructor
    · intro hcontra
      exact absurd hown hcontra
    · intro hpid
      rcases hcase with ⟨hlt, hdata2, -⟩ | ⟨hge, rfl⟩
      · constructor
        · intro hdef
          obtain ⟨hlen3, rfl⟩ := configWriteBytes_ok _ _ _ h3
          obtain ⟨hslot, -⟩ := vaultBootstrap_ok _ _ h4
          rw [hslot]
          have hd : st2.configSlot.data.length = 130 := by
            rw [hdata2]
            simp [List.length_take]
            omega
          show (configDiscriminator ++ serializeConfig cfg) ++
              st2.configSlot.data.drop (configDiscriminator ++ serializeConfig cfg).length =
            configDiscriminator ++ serializeConfig cfg
          rw [List.drop_eq_nil_of_le (by rw [hd, hL])]
          simp
        · intro hge2
          omega
      · constructor
        · intro hlt2
          omega
        · intro hge2
          obtain ⟨hlen3, rfl⟩ := configWriteBytes_ok _ _ _ h3
          obtain ⟨hslot, -⟩ := vaultBootstrap_ok _ _ h4
          rw [hslot]
          simp [hL]

/-- Witness for C8 (amended) on the shrinking update of the
counterexample: the prefunded slot is not resized and the stale tail
survives. -/
theorem configure_resize_only_on_deficit_witness :
    stShrinkAfter.configSlot.data =
      (configDiscriminator ++ serializeConfig cfgAuthOneB) ++
        stShrink.configSlot.data.drop 130 :=
  ((configure_resize_only_on_deficit 1 cfgAuthOneB stShrink stShrinkAfter (by decide)).2
    (by decide)).2 (by decide)

/-- C9: on every successful configure call, if the vault balance is zero
the caller funds it with exactly the fixed 1000000-lamport bootstrap
amount, and if the balance is nonzero the bootstrap step is a no-op and
the vault balance is unchanged — repeating configure never funds the
vault a second time. -/
theorem configure_vault_bootstrap_once (p : Pubkey) (cfg : Config) (st st' : ConfState)
    (h : configure p cfg st = Except.ok st') :
    (st.vaultLamports = 0 → st'.vaultLamports = st.vaultLamports + 1000000) ∧
    (st.vaultLamports ≠ 0 → st'.vaultLamports = st.vaultLamports) := by
  obtain ⟨st1, st2, st3, h1, h2, h3, h4⟩ := configure_ok_decompose _ _ _ _ h
  have v1 : st1.vaultLamports = st.vaultLamports := by
    rcases configInitOrAuth_ok _ _ _ _ _ h1 with ⟨-, rfl⟩ | ⟨-, rfl, -⟩ <;> rfl
  obtain ⟨v2, -, -⟩ := configTopUpAndRealloc_ok _ _ _ _ h2
  have v3 : st3.vaultLamports = st2.vaultLamports := by
    obtain ⟨-, rfl⟩ := configWriteBytes_ok _ _ _ h3
    rfl
  have vchain : st3.vaultLamports = st.vaultLamports := v3.trans (v2.trans v1)
  obtain ⟨-, hv⟩ := vaultBootstrap_ok _ _ h4
  constructor
  · intro h0
    rcases hv with ⟨-, he⟩ | ⟨hne, -⟩
    · rw [he, vchain]
    · exact absurd (vchain.trans h0) hne
  · intro hne0
    rcases hv with ⟨h0, -⟩ | ⟨-, he⟩
    · exact absurd (vchain.symm.trans h0) hne0
    · exact he.trans vchain

/-- Witness for C9: the first call funds the empty vault with exactly
1000000 lamports. -/
theorem configure_vault_bootstrap_once_witness :
    stAfterInit.vaultLamports = stEmpty.vaultLamports + 1000000 :=
  (configure_vault_bootstrap_once 1 cfgLoose stEmpty stAfterInit (by decide)).1 rfl
